import Mathlib

set_option maxRecDepth 8000

/-
Verification of the point-snapping and alignment-tracking engine of the
chili3d CAD editor: the `TrackingSnap` candidate scorer/selector and the
`SnapEventHandler` interaction state machine
(src/packages/chili/src/snap/tracking/trackingSnap.ts).

Scalars are embedded as exact integers (the algorithms under test are
purely order-theoretic, so an ordered-ring model suffices).  External collaborators that the
source consumes behind interfaces (view projection `worldToScreen` /
`screenDistance`, the shape kernel's `nearestTo` / `intersect`, the
candidate generators `AxisTracking.getAxes` / `ObjectTracking.getTrackingRays`,
and `XYZ.distanceTo`) enter the model as explicit oracle parameters bundled
in `SnapEnv`; the mesh-display context (`displayMesh` / `removeMesh`) is an
explicit `VisualState` threaded through the stateful operations.
-/

/-- Exact-integer embedding of the chili-core `XYZ` 3D vector (only the
operations the snap code evaluates itself: `sub` and `dot`). -/
structure XYZ where
  x : ℤ
  y : ℤ
  z : ℤ
deriving DecidableEq

def XYZ.sub (a b : XYZ) : XYZ := ⟨a.x - b.x, a.y - b.y, a.z - b.z⟩

def XYZ.dot (a b : XYZ) : ℤ := a.x * b.x + a.y * b.y + a.z * b.z

def XYZ.zero : XYZ := ⟨0, 0, 0⟩

/-- A tracking axis: origin (`point` in the source), direction and a display
name. -/
structure Axis where
  point : XYZ
  direction : XYZ
  name : String
deriving DecidableEq

/-- The source's `ShapeType` flags, reduced to the alternatives the snap code
inspects (`shapeType !== ShapeType.Edge`). -/
inductive ShapeType where
  | vertex
  | edge
  | face
  | other
deriving DecidableEq

/-- A shape detected under the pointer; only its kind is inspected by the
code under verification (its `intersect` capability is an oracle in
`SnapEnv`). -/
structure DetectedShape where
  shapeType : ShapeType
deriving DecidableEq

/-- The source's `SnapResult` (the `view` field, a fixed collaborator, is
dropped). -/
structure SnapResult where
  point : XYZ
  info : Option String
  shapes : List DetectedShape
  refPoint : Option XYZ
  distance : Option ℤ
deriving DecidableEq

/-- The source's `TrackingData`. -/
structure TrackingData where
  axis : Axis
  point : XYZ
  isObjectTracking : Bool
  distance : ℤ
  info : String
deriving DecidableEq

/-- The source's `MouseAndDetected`; the view and pointer coordinates are
folded into the oracle functions of `SnapEnv`. -/
structure MouseAndDetected where
  shapes : List DetectedShape
deriving DecidableEq

/-- One entry of `ObjectTracking.getTrackingRays(view)`. -/
structure ObjectRays where
  axes : List Axis
  objectName : String

/-- The mesh-display context plus `TrackingSnap`'s per-view `_tempLines`
record, for a single viewport.  `displayMesh` hands out consecutive ids;
`live` is the multiset of currently displayed mesh handles; `removeMissed`
counts attempts to remove a handle that is not displayed (a double-free
detector).  `subscribed` models the `Config` property-changed subscription
taken in the constructor and dropped in `clear()`. -/
structure VisualState where
  nextId : ℕ
  live : Multiset ℕ
  removeMissed : ℕ
  tempLines : List ℕ
  subscribed : Bool
deriving DecidableEq

/-- Per-tick external inputs of `TrackingSnap.snap`: the reactive `Config`
settings, the outputs of the candidate generators, and the geometric
queries the source delegates to the view and the shape kernel.
`rayDist axis` is `rayDistanceAtScreen(view, x, y, axis)` (a screen-space
length, hence non-negative in the source, where it is a square root);
`nearest axis` is `axis.nearestTo(view.rayAt(x, y).toLine())`;
`edgeIntersect axis` is `edge.intersect(axis)` for the first detected shape;
`screenDist p` is `IView.screenDistance(view, mx, my, p)`;
`distanceTo a b` is chili-core's `a.distanceTo(b)`. -/
structure SnapEnv where
  enableSnapTracking : Bool
  snapDistance : ℤ
  hasReferencePoint : Bool
  axisTrackingAxes : List Axis
  objectTrackingRays : List ObjectRays
  rayDist : Axis → ℤ
  nearest : Axis → XYZ
  axisIntersect : Axis → Axis → Option XYZ
  edgeIntersect : Axis → List XYZ
  screenDist : XYZ → ℤ
  distanceTo : XYZ → XYZ → ℤ

/-
Model of JavaScript `Array.prototype.sort(comparator)`: the natural-run
merge sort at the core of the TimSort used by the major engines.  Maximal
non-descending runs are detected (`comparator(cur, prev) < 0` starts a new
run; an initial strictly descending run is collected and reversed), then
adjacent runs are merged stably (an element is taken from the right run
exactly when `comparator(right, left) < 0`).  For a consistent comparator
this is a stable ascending sort; for the single-argument comparators the
source passes (which ignore their second operand and return a non-negative
number) run detection classifies the whole array as one non-descending run,
so the array is returned unchanged.  Fuel arguments make every recursion
structural. -/

def runAsc (c : α → α → ℤ) : α → List α → List α × List α
  | prev, [] => ([prev], [])
  | prev, x :: xs =>
    if c x prev < 0 then ([prev], x :: xs)
    else
      let p := runAsc c x xs
      (prev :: p.1, p.2)

def runDesc (c : α → α → ℤ) : α → List α → List α × List α
  | prev, [] => ([prev], [])
  | prev, x :: xs =>
    if c x prev < 0 then
      let p := runDesc c x xs
      (prev :: p.1, p.2)
    else ([prev], x :: xs)

def splitRuns (c : α → α → ℤ) : ℕ → List α → List (List α)
  | 0, _ => []
  | _ + 1, [] => []
  | _ + 1, [x] => [[x]]
  | fuel + 1, x :: y :: ys =>
    if c y x < 0 then
      let p := runDesc c y ys
      (x :: p.1).reverse :: splitRuns c fuel p.2
    else
      let p := runAsc c y ys
      (x :: p.1) :: splitRuns c fuel p.2

def merge2 (c : α → α → ℤ) : ℕ → List α → List α → List α
  | 0, l, r => l ++ r
  | _ + 1, [], r => r
  | _ + 1, a :: l, [] => a :: l
  | fuel + 1, a :: l, b :: r =>
    if c b a < 0 then b :: merge2 c fuel (a :: l) r
    else a :: merge2 c fuel l (b :: r)

def mergeAll (c : α → α → ℤ) : ℕ → List (List α) → List α
  | 0, rs => rs.flatten
  | _ + 1, [] => []
  | _ + 1, [r] => r
  | fuel + 1, r1 :: r2 :: rs => mergeAll c fuel (merge2 c (r1.length + r2.length) r1 r2 :: rs)

def jsArraySort (c : α → α → ℤ) (l : List α) : List α :=
  mergeAll c l.length (splitRuns c l.length l)

/-
`TrackingSnap` (candidate scorer & selector).  Methods are embedded as
functions over `SnapEnv` (per-tick external inputs) threading a
`VisualState` (the mesh-display context and the per-view `_tempLines`
record).  The guide-line mesh geometry built by `showTempLine`
(the `×10¹⁰` extension capped at `10²⁰`) is opaque display data and is not
modelled; only the handle accounting and the degenerate-direction failure
(`normalize` of the zero vector yields `undefined`) are. -/

def displayMesh (s : VisualState) : ℕ × VisualState :=
  (s.nextId, { s with nextId := s.nextId + 1, live := s.live + {s.nextId} })

def removeMesh (s : VisualState) (id : ℕ) : VisualState :=
  if id ∈ s.live then { s with live := s.live.erase id }
  else { s with removeMissed := s.removeMissed + 1 }

/-- `TrackingSnap.showTempLine`: returns `undefined` exactly when the
direction `end - start` fails to normalize, i.e. is the zero vector in the
exact-arithmetic model; otherwise displays one dashed mesh and returns its
handle. -/
def showTempLine (start stop : XYZ) (s : VisualState) : Option ℕ × VisualState :=
  if stop.sub start = XYZ.zero then (none, s)
  else
    let p := displayMesh s
    (some p.1, p.2)

/-- The `trackingData.map((x) => this.showTempLine(view, x.axis.point, point))
.filter((id) => id !== undefined)` step of `getSnappedAndShowTracking`. -/
def displayTempLines (point : XYZ) : List TrackingData → VisualState → List ℕ × VisualState
  | [], s => ([], s)
  | t :: rest, s =>
    match showTempLine t.axis.point point s with
    | (some id, s1) =>
      let p := displayTempLines point rest s1
      (id :: p.1, p.2)
    | (none, s1) => displayTempLines point rest s1

/-- The i18n key `"snap.intersection"`. -/
def snapIntersectionKey : String := "snap.intersection"

/-- `TrackingSnap.getSnappedAndShowTracking`.  Callers pass one or two
tracking data; the empty case (which would throw on `trackingData[0]` in the
source) is unreachable and returns a degenerate result. -/
def getSnappedAndShowTracking (env : SnapEnv) (point : XYZ) (trackingData : List TrackingData)
    (s : VisualState) : SnapResult × VisualState :=
  let p := displayTempLines point trackingData s
  let s2 : VisualState := { p.2 with tempLines := p.1 }
  match trackingData with
  | [t0] =>
    ({ point := point, info := some t0.axis.name, shapes := [],
       refPoint := some t0.axis.point,
       distance := some (env.distanceTo point t0.axis.point) }, s2)
  | t0 :: _ :: _ =>
    ({ point := point, info := some snapIntersectionKey, shapes := [],
       refPoint := some t0.axis.point, distance := none }, s2)
  | [] =>
    ({ point := point, info := none, shapes := [], refPoint := none,
       distance := none }, s2)

/-- An element of the `points` array built by `TrackingSnap.findIntersection`. -/
structure IntersectCandidate where
  intersect : XYZ
  location : XYZ
deriving DecidableEq

/-- `TrackingSnap.findIntersection`: collect every intersection of the
detected edge with every candidate axis, sort with the single-argument
comparator `(p) => IView.screenDistance(data.view, data.mx, data.my,
p.intersect)`, take the first element. -/
def findIntersection (env : SnapEnv) (trackingData : List TrackingData) :
    Option IntersectCandidate :=
  let points : List IntersectCandidate :=
    (trackingData.map fun x =>
      (env.edgeIntersect x.axis).map fun p =>
        { intersect := p, location := x.axis.point }).flatten
  (jsArraySort (fun p _ => env.screenDist p.intersect) points).head?

/-- `TrackingSnap.shapeIntersectTracking`. -/
def shapeIntersectTracking (env : SnapEnv) (data : MouseAndDetected)
    (trackingData : List TrackingData) (s : VisualState) :
    Option SnapResult × VisualState :=
  match data.shapes with
  | [] => (none, s)
  | sh :: _ =>
    if sh.shapeType ≠ ShapeType.edge then (none, s)
    else
      match findIntersection env trackingData with
      | none => (none, s)
      | some p =>
        match showTempLine p.location p.intersect s with
        | (none, s1) => (none, s1)
        | (some id, s1) =>
          (some { point := p.intersect, info := some snapIntersectionKey,
                  shapes := [sh], refPoint := none, distance := none },
           { s1 with tempLines := [id] })

/-- `TrackingSnap.trackingIntersectTracking`: intersect the lines of the
first two candidates.  The source indexes `trackingData[0]` and
`trackingData[1]` unconditionally; `snap` only calls it with two or more
candidates. -/
def trackingIntersectTracking (env : SnapEnv) (trackingData : List TrackingData)
    (s : VisualState) : Option SnapResult × VisualState :=
  match trackingData with
  | t0 :: t1 :: _ =>
    match env.axisIntersect t0.axis t1.axis with
    | some point =>
      let p := getSnappedAndShowTracking env point [t0, t1] s
      (some p.1, p.2)
    | none => (none, s)
  | _ => (none, s)

/-- `TrackingSnap.getSnappedFromAxes`: keep every axis whose screen-space
distance is below the configured threshold and whose nearest point to the
pointer ray is not behind the axis origin. -/
def getSnappedFromAxes (env : SnapEnv) (axes : List Axis) (snappedName : Option String) :
    List TrackingData :=
  match axes with
  | [] => []
  | axis :: rest =>
    let tail := getSnappedFromAxes env rest snappedName
    let distance := env.rayDist axis
    if distance < env.snapDistance then
      let point := env.nearest axis
      if (point.sub axis.point).dot axis.direction < 0 then tail
      else
        { axis := axis, distance := distance, point := point,
          info := snappedName.getD axis.name,
          isObjectTracking := snappedName.isSome } :: tail
    else tail

/-- `TrackingSnap.detectTracking`: axes seeded at the reference point (when
one is configured), then the object-tracking rays, each filtered by
`getSnappedFromAxes`. -/
def detectTracking (env : SnapEnv) : List TrackingData :=
  (if env.hasReferencePoint then getSnappedFromAxes env env.axisTrackingAxes none else [])
    ++ (env.objectTrackingRays.map fun a =>
          getSnappedFromAxes env a.axes (some a.objectName)).flatten

/-- The source's sort comparator `(x) => x.distance`: it is declared with a
single parameter, so the second operand the engine passes is ignored. -/
def trackingCompare (x : TrackingData) (_ : TrackingData) : ℤ := x.distance

/-- `TrackingSnap.snap`. -/
def TrackingSnap.snap (env : SnapEnv) (data : MouseAndDetected) (s : VisualState) :
    Option SnapResult × VisualState :=
  if env.enableSnapTracking = false then (none, s)
  else
    let trackingData := detectTracking env
    if trackingData.length = 0 then (none, s)
    else
      let sorted := jsArraySort trackingCompare trackingData
      match shapeIntersectTracking env data sorted s with
      | (some snapped, s1) => (some snapped, s1)
      | (none, s1) =>
        match sorted with
        | [t0] =>
          let p := getSnappedAndShowTracking env t0.point [t0] s1
          (some p.1, p.2)
        | t0 :: _ :: _ =>
          match trackingIntersectTracking env sorted s1 with
          | (some r, s2) => (some r, s2)
          | (none, s2) =>
            let p := getSnappedAndShowTracking env t0.point [t0] s2
            (some p.1, p.2)
        | [] => (none, s1)

/-- `TrackingSnap.removeDynamicObject` restricted to the single modelled
viewport: remove every recorded temp line, then clear the record. -/
def TrackingSnap.removeDynamicObject (v : VisualState) : VisualState :=
  let v1 := v.tempLines.foldl removeMesh v
  { v1 with tempLines := [] }

/-- `TrackingSnap.clear`: remove the dynamic objects and unsubscribe from
`Config` change notifications.  The `AxisTracking.clear` /
`ObjectTracking.clear` cache resets live in the generator collaborators and
own no handles in the modelled viewport state. -/
def TrackingSnap.clear (v : VisualState) : VisualState :=
  let v1 := TrackingSnap.removeDynamicObject v
  { v1 with subscribed := false }

/-
`SnapEventHandler` (interaction state machine).  One handler instance per
point-picking session; its pointer/keyboard entry points become functions
`Handler → Handler`.  The notification-bus publications
(`showFloatTip` / `clearFloatTip` / `clearInput` / `showToast`) are
fire-and-forget messages with no feedback into the modelled state and are
not recorded.  `controller.success()` / `controller.cancel()` calls into the
external completion controller are counted.  The ordered snap-provider list
is the tracking snap (the one provider implemented in this file); the
delayed `ObjectTracking.showTrackingAtTimeout` highlight triggered by
`handleSnapped` is a debounced, wall-clock effect in an external
collaborator and is outside the synchronous tick. -/

inductive SnapState where
  | idle
  | snapping
  | inputting
  | cancelled
  | completed
deriving DecidableEq

/-- A named feature point of the step data; `when` is the already-evaluated
result of the optional guard predicate for the current tick (`none` when no
guard is configured). -/
structure FeaturePoint where
  point : XYZ
  prompt : String
  when : Option Bool
deriving DecidableEq

/-- The per-tick external inputs of one `pointerMove`: the snap environment,
the session's feature points (guards pre-evaluated), the screen-space
distance query for feature points, the detected shapes, the optional
`data.preview` callback (returning how many preview meshes it yields, or
`none` when it is absent or returns `undefined`), and the optional
`data.validator` predicate. -/
structure TickOracle where
  env : SnapEnv
  featurePoints : List FeaturePoint
  screenDistTo : XYZ → ℤ
  shapes : List DetectedShape
  preview : Option XYZ → Option ℕ
  validator : Option (XYZ → Bool)

/-- The state of one `SnapEventHandler` session. -/
structure Handler where
  state : SnapState
  snapped : Option SnapResult
  tempPoint : Option ℕ
  tempShapes : Option (List ℕ)
  showTempPoint : Bool
  vis : VisualState
  successCalls : ℕ
  cancelCalls : ℕ
  cleanupRuns : ℕ
deriving DecidableEq

/-- `SnapEventHandler.removeTempShapes`: remove the temp point marker and
the preview shapes, clearing both records. -/
def SnapEventHandler.removeTempShapes (h : Handler) : Handler :=
  let v1 := match h.tempPoint with
    | some id => removeMesh h.vis id
    | none => h.vis
  let v2 := match h.tempShapes with
    | some ids => ids.foldl removeMesh v1
    | none => v1
  { h with tempPoint := none, tempShapes := none, vis := v2 }

/-- `SnapEventHandler.removeTempVisuals`: temp shapes first, then every
provider's `removeDynamicObject`. -/
def SnapEventHandler.removeTempVisuals (h : Handler) : Handler :=
  let h1 := SnapEventHandler.removeTempShapes h
  { h1 with vis := TrackingSnap.removeDynamicObject h1.vis }

/-- `SnapEventHandler.cleanupResources`: clear the floating prompt and any
open input channel (bus messages, unrecorded), remove all temporary
visuals, and `clear()` every provider. -/
def SnapEventHandler.cleanupResources (h : Handler) : Handler :=
  let h1 := SnapEventHandler.removeTempVisuals h
  { h1 with vis := TrackingSnap.clear h1.vis, cleanupRuns := h1.cleanupRuns + 1 }

/-- `SnapEventHandler.handleSuccess`: guarded against re-entry into
`Completed` only; fires `controller.success()` then runs the cleanup. -/
def SnapEventHandler.handleSuccess (h : Handler) : Handler :=
  if h.state = SnapState.completed then h
  else
    SnapEventHandler.cleanupResources
      { h with state := SnapState.completed, successCalls := h.successCalls + 1 }

/-- `SnapEventHandler.handleCancel`: guarded against re-entry into
`Cancelled` only; fires `controller.cancel()` then runs the cleanup. -/
def SnapEventHandler.handleCancel (h : Handler) : Handler :=
  if h.state = SnapState.cancelled then h
  else
    SnapEventHandler.cleanupResources
      { h with state := SnapState.cancelled, cancelCalls := h.cancelCalls + 1 }

/-- `Number.MAX_VALUE`, the initial minimum in `findNearestFeaturePoint`. -/
def jsMaxValue : ℤ := (((2 ^ 53 - 1) * 2 ^ 971 : ℕ) : ℤ)

/-- The accumulator loop of `SnapEventHandler.findNearestFeaturePoint`:
skip points whose guard is present and false; keep the strictly nearest. -/
def featureFold (screenDistTo : XYZ → ℤ) :
    List FeaturePoint → ℤ × Option FeaturePoint → ℤ × Option FeaturePoint
  | [], acc => acc
  | p :: rest, acc =>
    if p.when.getD true = false then featureFold screenDistTo rest acc
    else
      let d := screenDistTo p.point
      if d < acc.1 then featureFold screenDistTo rest (d, some p)
      else featureFold screenDistTo rest acc

/-- `SnapEventHandler.findNearestFeaturePoint`. -/
def findNearestFeaturePoint (screenDistTo : XYZ → ℤ) (snapDistance : ℤ)
    (featurePoints : List FeaturePoint) : Option FeaturePoint :=
  let r := featureFold screenDistTo featurePoints (jsMaxValue, none)
  if r.1 < snapDistance then r.2 else none

/-- `SnapEventHandler.validateSnapPoint`: accept when no validator is
configured or the validator accepts the point. -/
def validateSnapPoint (validator : Option (XYZ → Bool)) (snapped : SnapResult) : Bool :=
  match validator with
  | none => true
  | some v => v snapped.point

/-- The provider loop inside `findSnapPoint`: consult each provider in
order; stop at the first result the validator accepts (a produced but
rejected result does not stop the loop). -/
def providerScan (validator : Option (XYZ → Bool)) :
    List (VisualState → Option SnapResult × VisualState) → VisualState →
      Option SnapResult × VisualState
  | [], s => (none, s)
  | p :: rest, s =>
    match p s with
    | (some r, s1) =>
      if validateSnapPoint validator r then (some r, s1)
      else providerScan validator rest s1
    | (none, s1) => providerScan validator rest s1

/-- `SnapEventHandler.findSnapPoint`: the nearest qualifying feature point
wins outright (no validator applied); otherwise the provider chain runs and
`_snapped` keeps its previous value when no provider result is accepted. -/
def findSnapPoint (o : TickOracle) (validator : Option (XYZ → Bool))
    (providers : List (VisualState → Option SnapResult × VisualState))
    (snapped : Option SnapResult) (s : VisualState) : Option SnapResult × VisualState :=
  match findNearestFeaturePoint o.screenDistTo o.env.snapDistance o.featurePoints with
  | some fp =>
    (some { point := fp.point, info := some fp.prompt, shapes := [],
            refPoint := none, distance := none }, s)
  | none =>
    match providerScan validator providers s with
    | (some r, s1) => (some r, s1)
    | (none, s1) => (snapped, s1)

/-- The session's ordered provider list: the tracking snap. -/
def sessionProviders (o : TickOracle) :
    List (VisualState → Option SnapResult × VisualState) :=
  [fun s => TrackingSnap.snap o.env { shapes := o.shapes } s]

/-- Allocate `k` consecutive mesh handles (the `preview` meshes). -/
def allocN : ℕ → VisualState → VisualState
  | 0, v => v
  | k + 1, v => allocN k (displayMesh v).2

/-- `SnapEventHandler.showTempShape`: display a marker at the snapped point
(when one exists and markers are enabled; otherwise `_tempPoint` keeps its
value), then overwrite `_tempShapes` with the handles of whatever the
`preview` callback returns for the (possibly absent) point. -/
def SnapEventHandler.showTempShape (preview : Option XYZ → Option ℕ) (point : Option XYZ)
    (h : Handler) : Handler :=
  let tp : Option ℕ × VisualState :=
    match point with
    | some _ =>
      if h.showTempPoint then
        let p := displayMesh h.vis
        (some p.1, p.2)
      else (h.tempPoint, h.vis)
    | none => (h.tempPoint, h.vis)
  let ts : Option (List ℕ) × VisualState :=
    match preview point with
    | some k => (some (List.range' tp.2.nextId k), allocN k tp.2)
    | none => (none, tp.2)
  { h with tempPoint := tp.1, tempShapes := ts.1, vis := ts.2 }

/-- `SnapEventHandler.pointerMove`: enter `Snapping`, release the previous
tick's visuals, recompute the snap, redraw the marker and preview. -/
def SnapEventHandler.pointerMove (o : TickOracle) (h : Handler) : Handler :=
  let h1 := SnapEventHandler.removeTempVisuals { h with state := SnapState.snapping }
  let p := findSnapPoint o o.validator (sessionProviders o) h1.snapped h1.vis
  let h2 := { h1 with snapped := p.1, vis := p.2 }
  SnapEventHandler.showTempShape o.preview (h2.snapped.map SnapResult.point) h2

/-- `SnapEventHandler.pointerOut`. -/
def SnapEventHandler.pointerOut (h : Handler) : Handler :=
  { h with snapped := none }

/-- `SnapEventHandler.pointerDown` for a primary-button mouse press: a valid
current snap triggers success completion, otherwise a toast (bus message,
unrecorded). -/
def SnapEventHandler.pointerDownMouse0 (h : Handler) : Handler :=
  if h.snapped.isSome then SnapEventHandler.handleSuccess h else h

/-- `SnapEventHandler.pointerUp` for a primary non-mouse pointer. -/
def SnapEventHandler.pointerUpTouchPrimary (h : Handler) : Handler :=
  if h.snapped.isSome then SnapEventHandler.handleSuccess h else h

/-- `keyDown` on Escape: clear the snap, trigger cancel completion. -/
def SnapEventHandler.keyEscape (h : Handler) : Handler :=
  SnapEventHandler.handleCancel { h with snapped := none }

/-- `keyDown` on Enter: clear the snap, trigger success completion. -/
def SnapEventHandler.keyEnter (h : Handler) : Handler :=
  SnapEventHandler.handleSuccess { h with snapped := none }

/-- The numeric-entry prefix keys accepted by `handleNumericInput`. -/
def numericKeys : List String :=
  ["#", "-", "0", "1", "2", "3", "4", "5", "6", "7", "8", "9"]

/-- `keyDown` on any other key: a recognized numeric key opens the
text-entry channel and enters `Inputting` (the submission continuation is a
separate, later signal); anything else is ignored. -/
def SnapEventHandler.keyOther (key : String) (h : Handler) : Handler :=
  if key ∈ numericKeys then { h with state := SnapState.inputting } else h

/-- The mesh-display context before any session starts. -/
def initVisual : VisualState :=
  { nextId := 0, live := 0, removeMissed := 0, tempLines := [], subscribed := true }

/-- The constructor: state `Idle`, no snap, and `showTempShape(undefined)`
primes an empty preview with the session's `preview` callback.  The
completion controller's `onCancelled` / `onCompleted` registrations are the
`handleCancel` / `handleSuccess` entry points of the model. -/
def SnapEventHandler.initHandler (preview : Option XYZ → Option ℕ) : Handler :=
  SnapEventHandler.showTempShape preview none
    { state := SnapState.idle, snapped := none, tempPoint := none, tempShapes := none,
      showTempPoint := true, vis := initVisual,
      successCalls := 0, cancelCalls := 0, cleanupRuns := 0 }

/-
Concrete instances used by the counterexamples and witnesses below.  Each
oracle is a legitimate instantiation of the corresponding external
interface: screen distances are non-negative, `nearest` returns a point on
the axis, `edgeIntersect` returns points of the edge, and so on. -/

/-- Two surviving reference-point axes whose screen distances arrive in
generator order 5 then 3. -/
def axisC1a : Axis := ⟨⟨0, 0, 0⟩, ⟨1, 0, 0⟩, "xline"⟩

def axisC1b : Axis := ⟨⟨0, 1, 0⟩, ⟨1, 0, 0⟩, "yline"⟩

def envC1 : SnapEnv :=
  { enableSnapTracking := true, snapDistance := 10, hasReferencePoint := true
    axisTrackingAxes := [axisC1a, axisC1b], objectTrackingRays := []
    rayDist := fun a => if a.name = "xline" then 5 else 3
    nearest := fun a => ⟨2, a.point.y, 0⟩
    axisIntersect := fun _ _ => none
    edgeIntersect := fun _ => []
    screenDist := fun _ => 0
    distanceTo := fun _ _ => 2 }

/-- Two parallel axes (no line-line intersection), generator order with
screen distances 5 then 3, no detected edge. -/
def axisC8a : Axis := ⟨⟨0, 0, 0⟩, ⟨1, 0, 0⟩, "first"⟩

def axisC8b : Axis := ⟨⟨0, 5, 0⟩, ⟨1, 0, 0⟩, "second"⟩

def envC8 : SnapEnv :=
  { enableSnapTracking := true, snapDistance := 10, hasReferencePoint := true
    axisTrackingAxes := [axisC8a, axisC8b], objectTrackingRays := []
    rayDist := fun a => if a.name = "first" then 5 else 3
    nearest := fun a => ⟨2, a.point.y, 0⟩
    axisIntersect := fun _ _ => none
    edgeIntersect := fun _ => []
    screenDist := fun _ => 0
    distanceTo := fun _ _ => 2 }

/-- Two axes crossed by a detected edge: the first-generated intersection is
at screen distance 5, the second at screen distance 3. -/
def axisC2c : Axis := ⟨⟨0, 0, 0⟩, ⟨1, 0, 0⟩, "c"⟩

def axisC2d : Axis := ⟨⟨0, 9, 0⟩, ⟨1, 0, 0⟩, "d"⟩

def envC2 : SnapEnv :=
  { enableSnapTracking := true, snapDistance := 10, hasReferencePoint := true
    axisTrackingAxes := [axisC2c, axisC2d], objectTrackingRays := []
    rayDist := fun _ => 1
    nearest := fun a => ⟨1, a.point.y, 0⟩
    axisIntersect := fun _ _ => none
    edgeIntersect := fun a => if a.name = "c" then [⟨1, 1, 0⟩] else [⟨2, 2, 0⟩]
    screenDist := fun p => if p = ⟨1, 1, 0⟩ then 5 else 3
    distanceTo := fun _ _ => 2 }

def dataC2 : MouseAndDetected := ⟨[⟨ShapeType.edge⟩]⟩

/-- A single surviving axis whose nearest point is `(5,0,0)` while a
detected edge intersects it at `(3,4,0)`. -/
def axisC7 : Axis := ⟨⟨0, 0, 0⟩, ⟨1, 0, 0⟩, "x"⟩

def envC7 : SnapEnv :=
  { enableSnapTracking := true, snapDistance := 10, hasReferencePoint := true
    axisTrackingAxes := [axisC7], objectTrackingRays := []
    rayDist := fun _ => 1
    nearest := fun _ => ⟨5, 0, 0⟩
    axisIntersect := fun _ _ => none
    edgeIntersect := fun _ => [⟨3, 4, 0⟩]
    screenDist := fun _ => 2
    distanceTo := fun _ _ => 5 }

def dataC7 : MouseAndDetected := ⟨[⟨ShapeType.edge⟩]⟩

/-- A single surviving axis and no detected edge (witness for the amended
single-candidate claim). -/
def axisC7w : Axis := ⟨⟨0, 0, 0⟩, ⟨1, 0, 0⟩, "xw"⟩

def envC7w : SnapEnv :=
  { enableSnapTracking := true, snapDistance := 10, hasReferencePoint := true
    axisTrackingAxes := [axisC7w], objectTrackingRays := []
    rayDist := fun _ => 1
    nearest := fun _ => ⟨5, 0, 0⟩
    axisIntersect := fun _ _ => none
    edgeIntersect := fun _ => []
    screenDist := fun _ => 2
    distanceTo := fun _ _ => 5 }

/-- The tracking data `detectTracking envC7w` produces. -/
def tdC7w : TrackingData :=
  { axis := axisC7w, point := ⟨5, 0, 0⟩, isObjectTracking := false, distance := 1, info := "xw" }

/-- An axis whose nearest point to the pointer ray lies behind its origin
(witness for the behind-origin exclusion). -/
def axisC6w : Axis := ⟨⟨0, 0, 0⟩, ⟨1, 0, 0⟩, "behind"⟩

def envC6w : SnapEnv :=
  { enableSnapTracking := true, snapDistance := 10, hasReferencePoint := true
    axisTrackingAxes := [axisC6w], objectTrackingRays := []
    rayDist := fun _ => 1
    nearest := fun _ => ⟨-1, 0, 0⟩
    axisIntersect := fun _ _ => none
    edgeIntersect := fun _ => []
    screenDist := fun _ => 0
    distanceTo := fun _ _ => 1 }

/-- A session `preview` callback that yields nothing. -/
def previewNone : Option XYZ → Option ℕ := fun _ => none

/-- A snap environment with tracking disabled (its provider yields nothing). -/
def envDisabled : SnapEnv :=
  { enableSnapTracking := false, snapDistance := 10, hasReferencePoint := false
    axisTrackingAxes := [], objectTrackingRays := []
    rayDist := fun _ => 0
    nearest := fun _ => ⟨0, 0, 0⟩
    axisIntersect := fun _ _ => none
    edgeIntersect := fun _ => []
    screenDist := fun _ => 0
    distanceTo := fun _ _ => 0 }

/-- A qualifying feature point at screen distance 4 (threshold 10), paired
with a validator that rejects every point. -/
def fpC9 : FeaturePoint := ⟨⟨1, 2, 3⟩, "prompt.polygon.close", some true⟩

def oC9 : TickOracle :=
  { env := envDisabled, featurePoints := [fpC9]
    screenDistTo := fun _ => 4, shapes := [], preview := previewNone
    validator := some (fun _ => false) }

/-- A tick on which no feature point qualifies and the provider chain yields
nothing (tracking disabled). -/
def oC10 : TickOracle :=
  { env := envDisabled, featurePoints := []
    screenDistTo := fun _ => 4, shapes := [], preview := previewNone
    validator := none }

/-- A previously stored snap result (stale-snap retention witness). -/
def staleC10 : SnapResult :=
  { point := ⟨7, 7, 7⟩, info := some "old", shapes := [], refPoint := none, distance := none }

/-- A handler mid-session holding a stored snap result. -/
def handlerC10 : Handler :=
  { SnapEventHandler.initHandler previewNone with
      state := SnapState.snapping, snapped := some staleC10 }

/-- The mesh handles a session currently tracks: the tracking snap's
recorded guide lines, the temp point marker, and the preview shapes.  The
session's resource discipline keeps `vis.live` equal to this multiset. -/
def trackedHandles (h : Handler) : Multiset ℕ :=
  (↑h.vis.tempLines : Multiset ℕ) + ↑h.tempPoint.toList + ↑(h.tempShapes.getD [])

/-
Theorems.  First the generic facts about the modelled JavaScript sort, then
helper lemmas about the scorer/selector, then the claim theorems. -/

theorem runAsc_of_nonneg (c : α → α → ℤ) (f : α → ℤ) (hc : ∀ a b, c a b = f a)
    (prev : α) (xs : List α) (h : ∀ a ∈ xs, 0 ≤ f a) :
    runAsc c prev xs = (prev :: xs, []) := by
  induction xs generalizing prev with
  | nil => simp [runAsc]
  | cons x xs ih =>
    have hx : 0 ≤ f x := h x (by simp)
    have : ¬ c x prev < 0 := by
      rw [hc]
      exact not_lt.mpr hx
    simp only [runAsc, this, if_false]
    rw [ih x (fun a ha => h a (by simp [ha]))]

theorem splitRuns_of_nonneg (c : α → α → ℤ) (f : α → ℤ) (hc : ∀ a b, c a b = f a)
    (fuel : ℕ) (x : α) (xs : List α) (h : ∀ a ∈ xs, 0 ≤ f a) :
    splitRuns c (fuel + 1) (x :: xs) = [x :: xs] := by
  cases xs with
  | nil => simp [splitRuns]
  | cons y ys =>
    have hy : 0 ≤ f y := h y (by simp)
    have hnot : ¬ c y x < 0 := by
      rw [hc]
      exact not_lt.mpr hy
    have hrun : runAsc c y ys = (y :: ys, []) :=
      runAsc_of_nonneg c f hc y ys (fun a ha => h a (by simp [ha]))
    simp only [splitRuns, hnot, if_false, hrun]
    cases fuel <;> simp [splitRuns]

/-- For a comparator that ignores its second operand and returns a
non-negative value (as do the source's `(x) => x.distance` and
`(p) => IView.screenDistance(...)`), the modelled JavaScript sort returns
its input unchanged: the run detection sees a single non-descending run. -/
theorem jsArraySort_of_nonneg (c : α → α → ℤ) (f : α → ℤ) (hc : ∀ a b, c a b = f a)
    (l : List α) (h : ∀ a ∈ l, 0 ≤ f a) :
    jsArraySort c l = l := by
  cases l with
  | nil => simp [jsArraySort, splitRuns, mergeAll]
  | cons x xs =>
    unfold jsArraySort
    rw [show (x :: xs).length = xs.length + 1 from rfl,
      splitRuns_of_nonneg c f hc xs.length x xs (fun a ha => h a (by simp [ha]))]
    simp [mergeAll]

theorem jsArraySort_singleton (c : α → α → ℤ) (x : α) : jsArraySort c [x] = [x] := rfl

/-- Every surviving `TrackingData` of `getSnappedFromAxes` records an axis
of the input, the oracle's nearest point on it, a screen distance below the
threshold, and a nearest point not behind the origin. -/
theorem mem_getSnappedFromAxes (env : SnapEnv) (axes : List Axis) (name : Option String)
    (td : TrackingData) (h : td ∈ getSnappedFromAxes env axes name) :
    td.axis ∈ axes ∧ td.point = env.nearest td.axis ∧ td.distance = env.rayDist td.axis ∧
      0 ≤ ((env.nearest td.axis).sub td.axis.point).dot td.axis.direction ∧
      td.distance < env.snapDistance := by
  induction axes with
  | nil => simp [getSnappedFromAxes] at h
  | cons axis rest ih =>
    simp only [getSnappedFromAxes] at h
    by_cases h1 : env.rayDist axis < env.snapDistance
    · simp only [h1, if_true] at h
      by_cases h2 : ((env.nearest axis).sub axis.point).dot axis.direction < 0
      · simp only [h2, if_true] at h
        obtain ⟨hmem, hrest⟩ := ih h
        exact ⟨List.mem_cons_of_mem _ hmem, hrest⟩
      · simp only [h2, if_false] at h
        rcases List.mem_cons.mp h with heq | hmem
        · subst heq
          exact ⟨List.mem_cons_self _ _, rfl, rfl, not_lt.mp h2, h1⟩
        · obtain ⟨hm, hrest⟩ := ih hmem
          exact ⟨List.mem_cons_of_mem _ hm, hrest⟩
    · simp only [h1, if_false] at h
      obtain ⟨hm, hrest⟩ := ih h
      exact ⟨List.mem_cons_of_mem _ hm, hrest⟩

/-- Every candidate the detector produces carries the nearest point of its
axis, at non-negative offset from the origin. -/
theorem mem_detectTracking (env : SnapEnv) (td : TrackingData) (h : td ∈ detectTracking env) :
    td.point = env.nearest td.axis ∧
      0 ≤ ((env.nearest td.axis).sub td.axis.point).dot td.axis.direction := by
  unfold detectTracking at h
  rcases List.mem_append.mp h with h1 | h2
  · by_cases hr : env.hasReferencePoint
    · rw [if_pos hr] at h1
      obtain ⟨_, hp, _, hd, _⟩ := mem_getSnappedFromAxes env _ _ td h1
      exact ⟨hp, hd⟩
    · rw [if_neg hr] at h1
      simp at h1
  · obtain ⟨l, hl, hmem⟩ := List.mem_flatten.mp h2
    obtain ⟨a, _, rfl⟩ := List.mem_map.mp hl
    obtain ⟨_, hp, _, hd, _⟩ := mem_getSnappedFromAxes env _ _ td hmem
    exact ⟨hp, hd⟩

/-- `shapeIntersectTracking` either leaves the visual state untouched and
reports nothing, or displays exactly one guide line and records it. -/
theorem shapeIntersectTracking_cases (env : SnapEnv) (data : MouseAndDetected)
    (td : List TrackingData) (s : VisualState) :
    shapeIntersectTracking env data td s = (none, s) ∨
      ∃ r, shapeIntersectTracking env data td s =
        (some r, { s with nextId := s.nextId + 1, live := s.live + {s.nextId},
                          tempLines := [s.nextId] }) := by
  unfold shapeIntersectTracking
  cases data.shapes with
  | nil => exact Or.inl rfl
  | cons sh rest =>
    dsimp only
    by_cases hs : sh.shapeType = ShapeType.edge
    · rw [if_neg (not_not_intro hs)]
      cases findIntersection env td with
      | none => exact Or.inl rfl
      | some p =>
        dsimp only
        unfold showTempLine
        by_cases hz : p.intersect.sub p.location = XYZ.zero
        · rw [if_pos hz]
          exact Or.inl rfl
        · rw [if_neg hz]
          exact Or.inr ⟨_, rfl⟩
    · rw [if_pos hs]
      exact Or.inl rfl

theorem shapeIntersectTracking_none (env : SnapEnv) (data : MouseAndDetected)
    (td : List TrackingData) (s : VisualState)
    (h : (shapeIntersectTracking env data td s).1 = none) :
    shapeIntersectTracking env data td s = (none, s) := by
  rcases shapeIntersectTracking_cases env data td s with hc | ⟨r, hc⟩
  · exact hc
  · rw [hc] at h
    simp at h

theorem getSnappedAndShowTracking_fst_single (env : SnapEnv) (point : XYZ)
    (t0 : TrackingData) (s : VisualState) :
    (getSnappedAndShowTracking env point [t0] s).1 =
      { point := point, info := some t0.axis.name, shapes := [],
        refPoint := some t0.axis.point,
        distance := some (env.distanceTo point t0.axis.point) } := rfl

/-- Claim C6: an axis whose nearest point to the pointer ray lies behind its
origin (negative dot product with the direction) is excluded from the
candidate set entirely, whatever its screen distance; consequently every
surviving `TrackingData` has its point at non-negative parametric offset
along its axis (its point being the oracle's nearest point on the axis). -/
theorem C6_behind_origin_excluded (env : SnapEnv) :
    (∀ axis, ((env.nearest axis).sub axis.point).dot axis.direction < 0 →
        ∀ td ∈ detectTracking env, td.axis ≠ axis) ∧
    (∀ td ∈ detectTracking env,
        0 ≤ ((td.point).sub td.axis.point).dot td.axis.direction ∧
          td.point = env.nearest td.axis) := by
  constructor
  · intro axis hneg td htd heq
    obtain ⟨_, hd⟩ := mem_detectTracking env td htd
    rw [heq] at hd
    exact absurd hneg (not_lt.mpr hd)
  · intro td htd
    obtain ⟨hp, hd⟩ := mem_detectTracking env td htd
    refine ⟨?_, hp⟩
    rw [hp]
    exact hd

/-- Witness for C6: a concrete axis whose nearest point lies behind the
origin is absent from the candidate set even though its screen distance (1)
is far below the threshold (10). -/
theorem C6_witness :
    ((envC6w.nearest axisC6w).sub axisC6w.point).dot axisC6w.direction < 0 ∧
      envC6w.rayDist axisC6w < envC6w.snapDistance ∧
      ∀ td ∈ detectTracking envC6w, td.axis ≠ axisC6w :=
  ⟨by decide, by decide, (C6_behind_origin_excluded envC6w).1 axisC6w (by decide)⟩

/-- Claim C1 is refuted by the code: the comparator `(x) => x.distance`
ignores its second operand and returns a non-negative number, so the sort
step of `TrackingSnap.snap` leaves the surviving candidates in generator
order.  With generator-order screen distances `[5, 3]` the post-sort list
still reads `[5, 3]`: not ascending. -/
theorem C1_sort_leaves_generator_order :
    (jsArraySort trackingCompare (detectTracking envC1)).map TrackingData.distance = [5, 3] ∧
      ¬ List.Sorted (fun a b => a ≤ b)
          ((jsArraySort trackingCompare (detectTracking envC1)).map TrackingData.distance) := by
  constructor
  · decide
  · decide

/-- Claim C8 is refuted by the code: with two surviving parallel axes at
screen distances 5 (generated first) and 3 (generated second), the
no-intersection fallback snaps to the nearest point of the *first generated*
axis (distance 5), not of the axis with the smaller screen distance. -/
theorem C8_fallback_ignores_distance :
    (detectTracking envC8).map TrackingData.distance = [5, 3] ∧
      envC8.axisIntersect axisC8a axisC8b = none ∧
      (TrackingSnap.snap envC8 ⟨[]⟩ initVisual).1.map SnapResult.point =
        some (envC8.nearest axisC8a) ∧
      (TrackingSnap.snap envC8 ⟨[]⟩ initVisual).1.map SnapResult.point ≠
        some (envC8.nearest axisC8b) := by
  refine ⟨by decide, by decide, by decide, by decide⟩

/-- Claim C2 is refuted by the code: with a detected edge intersecting the
first-generated axis at screen distance 5 and the second-generated axis at
screen distance 3, `snap` returns the distance-5 intersection (the sort with
the single-argument comparator is a no-op and `points.at(0)` is the first
collected point), not the nearest one. -/
theorem C2_picks_first_generated_intersection :
    (TrackingSnap.snap envC2 dataC2 initVisual).1.map SnapResult.point = some ⟨1, 1, 0⟩ ∧
      envC2.screenDist ⟨1, 1, 0⟩ = 5 ∧
      envC2.screenDist ⟨2, 2, 0⟩ = 3 ∧
      (detectTracking envC2).map TrackingData.axis = [axisC2c, axisC2d] ∧
      envC2.edgeIntersect axisC2d = [⟨2, 2, 0⟩] ∧
      dataC2.shapes = [⟨ShapeType.edge⟩] := by
  refine ⟨by decide, by decide, by decide, by decide, by decide, by decide⟩

/-- Claim C7, counterexample to the statement as written: a single surviving
candidate whose axis is crossed by the detected edge makes `snap` return the
edge intersection `(3,4,0)` (an intersection is computed), not the axis's
nearest point `(5,0,0)`. -/
theorem C7_counterexample :
    (detectTracking envC7).length = 1 ∧
      (TrackingSnap.snap envC7 dataC7 initVisual).1.map SnapResult.point = some ⟨3, 4, 0⟩ ∧
      envC7.nearest axisC7 = ⟨5, 0, 0⟩ ∧
      (TrackingSnap.snap envC7 dataC7 initVisual).1.map SnapResult.point ≠
        some (envC7.nearest axisC7) := by
  refine ⟨by decide, by decide, by decide, by decide⟩

/-- Claim C7 as amended: with zero surviving candidates (in particular when
tracking is disabled) `snap` returns absent; with exactly one surviving
candidate, *when the edge-intersection branch produced nothing*, the result
is the single axis's nearest point, carrying the axis's display name and the
offset distance from the axis origin. -/
theorem C7_single_candidate (env : SnapEnv) (data : MouseAndDetected) (s : VisualState) :
    (env.enableSnapTracking = false → (TrackingSnap.snap env data s).1 = none) ∧
    (detectTracking env = [] → (TrackingSnap.snap env data s).1 = none) ∧
    (∀ td, env.enableSnapTracking = true → detectTracking env = [td] →
      (shapeIntersectTracking env data [td] s).1 = none →
      (TrackingSnap.snap env data s).1 = some
          { point := td.point, info := some td.axis.name, shapes := [],
            refPoint := some td.axis.point,
            distance := some (env.distanceTo td.point td.axis.point) } ∧
        td.point = env.nearest td.axis) := by
  refine ⟨?_, ?_, ?_⟩
  · intro h
    simp [TrackingSnap.snap, h]
  · intro h
    by_cases he : env.enableSnapTracking = false
    · simp [TrackingSnap.snap, he]
    · simp [TrackingSnap.snap, he, h]
  · intro td henable hdet hnone
    have hstep := shapeIntersectTracking_none env data [td] s hnone
    constructor
    · simp only [TrackingSnap.snap, henable]
      rw [hdet]
      simp only [List.length_cons, List.length_nil, jsArraySort_singleton, hstep]
      simp [getSnappedAndShowTracking_fst_single env td.point td s]
    · exact (mem_detectTracking env td (by rw [hdet]; exact List.mem_cons_self _ _)).1

/-- Witness for the amended C7 at a concrete single-candidate input with no
detected edge. -/
theorem C7_witness :
    (TrackingSnap.snap envC7w ⟨[]⟩ initVisual).1 = some
        { point := ⟨5, 0, 0⟩, info := some "xw", shapes := [],
          refPoint := some ⟨0, 0, 0⟩, distance := some 5 } ∧
      tdC7w.point = envC7w.nearest tdC7w.axis := by
  have h := (C7_single_candidate envC7w ⟨[]⟩ initVisual).2.2 tdC7w (by decide) (by decide)
    (by decide)
  exact ⟨h.1, h.2⟩

theorem removeMesh_nextId (s : VisualState) (id : ℕ) : (removeMesh s id).nextId = s.nextId := by
  unfold removeMesh
  split <;> rfl

theorem removeMesh_tempLines (s : VisualState) (id : ℕ) :
    (removeMesh s id).tempLines = s.tempLines := by
  unfold removeMesh
  split <;> rfl

theorem removeMesh_subscribed (s : VisualState) (id : ℕ) :
    (removeMesh s id).subscribed = s.subscribed := by
  unfold removeMesh
  split <;> rfl

theorem foldl_removeMesh_nextId (ids : List ℕ) (s : VisualState) :
    (ids.foldl removeMesh s).nextId = s.nextId := by
  induction ids generalizing s with
  | nil => rfl
  | cons a ids ih => rw [List.foldl_cons, ih, removeMesh_nextId]

theorem foldl_removeMesh_tempLines (ids : List ℕ) (s : VisualState) :
    (ids.foldl removeMesh s).tempLines = s.tempLines := by
  induction ids generalizing s with
  | nil => rfl
  | cons a ids ih => rw [List.foldl_cons, ih, removeMesh_tempLines]

theorem foldl_removeMesh_subscribed (ids : List ℕ) (s : VisualState) :
    (ids.foldl removeMesh s).subscribed = s.subscribed := by
  induction ids generalizing s with
  | nil => rfl
  | cons a ids ih => rw [List.foldl_cons, ih, removeMesh_subscribed]

theorem handleSuccess_of_completed (h : Handler) (hc : h.state = SnapState.completed) :
    SnapEventHandler.handleSuccess h = h := by
  unfold SnapEventHandler.handleSuccess
  rw [if_pos hc]

theorem handleCancel_of_cancelled (h : Handler) (hc : h.state = SnapState.cancelled) :
    SnapEventHandler.handleCancel h = h := by
  unfold SnapEventHandler.handleCancel
  rw [if_pos hc]

theorem handleSuccess_snapped (h : Handler) :
    (SnapEventHandler.handleSuccess h).snapped = h.snapped := by
  unfold SnapEventHandler.handleSuccess
  split <;> rfl

theorem handleCancel_snapped (h : Handler) :
    (SnapEventHandler.handleCancel h).snapped = h.snapped := by
  unfold SnapEventHandler.handleCancel
  split <;> rfl

theorem showTempShape_snapped (preview : Option XYZ → Option ℕ) (point : Option XYZ)
    (h : Handler) : (SnapEventHandler.showTempShape preview point h).snapped = h.snapped := rfl

/-- Claim C3, counterexample to the statement as written: from a fresh
session, a cancel completion followed by a success signal fires the
controller's success anyway (`handleSuccess` only guards `Completed`, not
`Cancelled`) and runs the cleanup a second time. -/
theorem C3_counterexample :
    (SnapEventHandler.handleSuccess (SnapEventHandler.handleCancel
        (SnapEventHandler.initHandler previewNone))).successCalls = 1 ∧
      (SnapEventHandler.handleSuccess (SnapEventHandler.handleCancel
        (SnapEventHandler.initHandler previewNone))).cleanupRuns = 2 ∧
      (SnapEventHandler.handleSuccess (SnapEventHandler.handleCancel
        (SnapEventHandler.initHandler previewNone))).cancelCalls = 1 := by
  refine ⟨by decide, by decide, by decide⟩

/-- Claim C3 as amended: the completion protocol is not cancel-first — only
same-state re-entry is guarded.  From the `Cancelled` state a subsequent
success signal is still honored: `handleSuccess` fires the controller's
success, moves the session to `Completed`, and runs the cleanup routine a
second time. -/
theorem C3_success_after_cancel_is_honored (h : Handler)
    (hc : h.state = SnapState.cancelled) :
    (SnapEventHandler.handleSuccess h).state = SnapState.completed ∧
      (SnapEventHandler.handleSuccess h).successCalls = h.successCalls + 1 ∧
      (SnapEventHandler.handleSuccess h).cleanupRuns = h.cleanupRuns + 1 := by
  have hne : ¬ h.state = SnapState.completed := by rw [hc]; exact fun hx => by cases hx
  unfold SnapEventHandler.handleSuccess
  rw [if_neg hne]
  exact ⟨rfl, rfl, rfl⟩

/-- Witness for the amended C3 at the concrete cancel-then-success run. -/
theorem C3_witness :
    (SnapEventHandler.handleSuccess (SnapEventHandler.handleCancel
        (SnapEventHandler.initHandler previewNone))).state = SnapState.completed ∧
      (SnapEventHandler.handleSuccess (SnapEventHandler.handleCancel
        (SnapEventHandler.initHandler previewNone))).successCalls = 1 ∧
      (SnapEventHandler.handleSuccess (SnapEventHandler.handleCancel
        (SnapEventHandler.initHandler previewNone))).cleanupRuns = 2 := by
  have h := C3_success_after_cancel_is_honored
    (SnapEventHandler.handleCancel (SnapEventHandler.initHandler previewNone)) (by decide)
  refine ⟨h.1, ?_, ?_⟩
  · rw [h.2.1]
    decide
  · rw [h.2.2]
    decide

/-- Claim C4: terminal states are absorbing for the same completion signal —
a duplicate success after `Completed` and a duplicate cancel after
`Cancelled` are exact no-ops (so downstream callbacks cannot double-fire) —
and running the cancel-cleanup routine twice leaves the same final visual
state (mesh handles, temp-point and preview records, double-free counter) as
running it once. -/
theorem C4_terminal_absorbing_cleanup_idempotent (h : Handler) :
    SnapEventHandler.handleSuccess (SnapEventHandler.handleSuccess h) =
        SnapEventHandler.handleSuccess h ∧
      SnapEventHandler.handleCancel (SnapEventHandler.handleCancel h) =
        SnapEventHandler.handleCancel h ∧
      (SnapEventHandler.cleanupResources (SnapEventHandler.cleanupResources h)).vis =
        (SnapEventHandler.cleanupResources h).vis ∧
      (SnapEventHandler.cleanupResources (SnapEventHandler.cleanupResources h)).tempPoint =
        (SnapEventHandler.cleanupResources h).tempPoint ∧
      (SnapEventHandler.cleanupResources (SnapEventHandler.cleanupResources h)).tempShapes =
        (SnapEventHandler.cleanupResources h).tempShapes := by
  refine ⟨?_, ?_, rfl, rfl, rfl⟩
  · by_cases hc : h.state = SnapState.completed
    · rw [handleSuccess_of_completed h hc, handleSuccess_of_completed h hc]
    · apply handleSuccess_of_completed
      unfold SnapEventHandler.handleSuccess
      rw [if_neg hc]
      rfl
  · by_cases hc : h.state = SnapState.cancelled
    · rw [handleCancel_of_cancelled h hc, handleCancel_of_cancelled h hc]
    · apply handleCancel_of_cancelled
      unfold SnapEventHandler.handleCancel
      rw [if_neg hc]
      rfl

/-- Invariants of the `findNearestFeaturePoint` accumulator loop: the
running minimum never increases, it is a lower bound on the distance of
every guard-passing point seen, and the accumulator either is untouched or
holds a guard-passing point of the list at its own distance. -/
theorem featureFold_spec (sd : XYZ → ℤ) (fps : List FeaturePoint) (m : ℤ)
    (a : Option FeaturePoint) :
    (featureFold sd fps (m, a)).1 ≤ m ∧
      (∀ p ∈ fps, p.when.getD true = true → (featureFold sd fps (m, a)).1 ≤ sd p.point) ∧
      (((featureFold sd fps (m, a)).1 = m ∧ (featureFold sd fps (m, a)).2 = a) ∨
        ∃ p ∈ fps, p.when.getD true = true ∧ (featureFold sd fps (m, a)).2 = some p ∧
          (featureFold sd fps (m, a)).1 = sd p.point) := by
  induction fps generalizing m a with
  | nil => simp [featureFold]
  | cons q rest ih =>
    by_cases hw : q.when.getD true = false
    · simp only [featureFold, hw, if_true]
      obtain ⟨ih1, ih2, ih3⟩ := ih m a
      refine ⟨ih1, ?_, ?_⟩
      · intro p hp hpt
        rcases List.mem_cons.mp hp with rfl | hp2
        · rw [hw] at hpt
          cases hpt
        · exact ih2 p hp2 hpt
      · rcases ih3 with hsame | ⟨p, hp, hrest⟩
        · exact Or.inl hsame
        · exact Or.inr ⟨p, List.mem_cons_of_mem _ hp, hrest⟩
    · have hw2 : q.when.getD true = true := by
        cases hq : q.when.getD true
        · exact absurd hq hw
        · rfl
      simp only [featureFold, hw2, Bool.true_eq_false, if_false]
      by_cases hd : sd q.point < m
      · rw [if_pos hd]
        obtain ⟨ih1, ih2, ih3⟩ := ih (sd q.point) (some q)
        refine ⟨le_trans ih1 (le_of_lt hd), ?_, ?_⟩
        · intro p hp hpt
          rcases List.mem_cons.mp hp with rfl | hp2
          · exact ih1
          · exact ih2 p hp2 hpt
        · rcases ih3 with ⟨h1, h2⟩ | ⟨p, hp, hg, h1, h2⟩
          · exact Or.inr ⟨q, List.mem_cons_self _ _, hw2, h2, h1⟩
          · exact Or.inr ⟨p, List.mem_cons_of_mem _ hp, hg, h1, h2⟩
      · rw [if_neg hd]
        obtain ⟨ih1, ih2, ih3⟩ := ih m a
        refine ⟨ih1, ?_, ?_⟩
        · intro p hp hpt
          rcases List.mem_cons.mp hp with rfl | hp2
          · exact le_trans ih1 (not_lt.mp hd)
          · exact ih2 p hp2 hpt
        · rcases ih3 with hsame | ⟨p, hp, hrest⟩
          · exact Or.inl hsame
          · exact Or.inr ⟨p, List.mem_cons_of_mem _ hp, hrest⟩

/-- Claim C9: whenever some feature point passes its guard and lies within
the pixel threshold, `findSnapPoint` resolves to a (guard-passing,
in-threshold) feature point directly: the provider chain is not consulted,
the visual state is untouched, and the result is the same for every
validator — the validator is never applied to feature points. -/
theorem C9_feature_point_bypasses_validator (o : TickOracle)
    (validator : Option (XYZ → Bool))
    (providers : List (VisualState → Option SnapResult × VisualState))
    (snapped : Option SnapResult) (s : VisualState) (fp : FeaturePoint)
    (hmem : fp ∈ o.featurePoints) (hguard : fp.when.getD true = true)
    (hnear : o.screenDistTo fp.point < o.env.snapDistance)
    (hmax : o.env.snapDistance ≤ jsMaxValue) :
    ∃ fp2, findNearestFeaturePoint o.screenDistTo o.env.snapDistance o.featurePoints = some fp2 ∧
      fp2 ∈ o.featurePoints ∧ fp2.when.getD true = true ∧
      o.screenDistTo fp2.point < o.env.snapDistance ∧
      findSnapPoint o validator providers snapped s =
        (some { point := fp2.point, info := some fp2.prompt, shapes := [],
                refPoint := none, distance := none }, s) := by
  obtain ⟨h1, h2, h3⟩ := featureFold_spec o.screenDistTo o.featurePoints jsMaxValue none
  have hlt : (featureFold o.screenDistTo o.featurePoints (jsMaxValue, none)).1 <
      o.env.snapDistance := lt_of_le_of_lt (h2 fp hmem hguard) hnear
  rcases h3 with ⟨hm, _⟩ | ⟨p, hp, hg, hsome, hval⟩
  · rw [hm] at hlt
    exact absurd hmax (not_le.mpr hlt)
  · have hfind : findNearestFeaturePoint o.screenDistTo o.env.snapDistance o.featurePoints =
        some p := by
      unfold findNearestFeaturePoint
      dsimp only
      rw [if_pos hlt]
      exact hsome
    refine ⟨p, hfind, hp, hg, ?_, ?_⟩
    · rw [← hval]
      exact hlt
    · unfold findSnapPoint
      rw [hfind]

/-- Witness for C9: a guard-passing feature point at screen distance 4
(threshold 10) becomes the snap result even though the session validator
rejects every point. -/
theorem C9_witness :
    ∃ fp2, findNearestFeaturePoint oC9.screenDistTo oC9.env.snapDistance oC9.featurePoints =
        some fp2 ∧
      fp2 ∈ oC9.featurePoints ∧ fp2.when.getD true = true ∧
      oC9.screenDistTo fp2.point < oC9.env.snapDistance ∧
      findSnapPoint oC9 (some fun _ => false) (sessionProviders oC9) none initVisual =
        (some { point := fp2.point, info := some fp2.prompt, shapes := [],
                refPoint := none, distance := none }, initVisual) :=
  C9_feature_point_bypasses_validator oC9 (some fun _ => false) (sessionProviders oC9)
    none initVisual fpC9 (by decide) (by decide) (by decide) (by decide)

/-- Claim C10: on a pointer-move tick where no feature point qualifies and
the provider chain yields nothing accepted, the stored snap result is left
unchanged; it is cleared by `pointerOut`, Escape and Enter, and by no other
input event (numeric keys, other keys, presses and releases). -/
theorem C10_stale_snap_retention (o : TickOracle) (h : Handler)
    (hfp : findNearestFeaturePoint o.screenDistTo o.env.snapDistance o.featurePoints = none)
    (hpr : (providerScan o.validator (sessionProviders o)
        (SnapEventHandler.removeTempVisuals
          { h with state := SnapState.snapping }).vis).1 = none) :
    (SnapEventHandler.pointerMove o h).snapped = h.snapped ∧
      (SnapEventHandler.pointerOut h).snapped = none ∧
      (SnapEventHandler.keyEscape h).snapped = none ∧
      (SnapEventHandler.keyEnter h).snapped = none ∧
      (∀ k, (SnapEventHandler.keyOther k h).snapped = h.snapped) ∧
      (SnapEventHandler.pointerDownMouse0 h).snapped = h.snapped ∧
      (SnapEventHandler.pointerUpTouchPrimary h).snapped = h.snapped := by
  refine ⟨?_, rfl, ?_, ?_, ?_, ?_, ?_⟩
  · unfold SnapEventHandler.pointerMove
    rw [showTempShape_snapped]
    dsimp only
    unfold findSnapPoint
    rw [hfp]
    rcases hps : providerScan o.validator (sessionProviders o)
        (SnapEventHandler.removeTempVisuals { h with state := SnapState.snapping }).vis
      with ⟨r, s1⟩
    rw [hps] at hpr
    cases r with
    | some _ => cases hpr
    | none => rfl
  · rw [SnapEventHandler.keyEscape, handleCancel_snapped]
  · rw [SnapEventHandler.keyEnter, handleSuccess_snapped]
  · intro k
    unfold SnapEventHandler.keyOther
    split <;> rfl
  · unfold SnapEventHandler.pointerDownMouse0
    split
    · rw [handleSuccess_snapped]
    · rfl
  · unfold SnapEventHandler.pointerUpTouchPrimary
    split
    · rw [handleSuccess_snapped]
    · rfl

/-- Witness for C10: a tick with no feature points and a disabled tracking
provider leaves the stored result `staleC10` in place, while Escape clears
it. -/
theorem C10_witness :
    (SnapEventHandler.pointerMove oC10 handlerC10).snapped = some staleC10 ∧
      (SnapEventHandler.keyEscape handlerC10).snapped = none := by
  have h := C10_stale_snap_retention oC10 handlerC10 (by decide) (by decide)
  refine ⟨?_, h.2.2.1⟩
  rw [h.1]
  decide

theorem coe_cons_le_erase {a : ℕ} {l : List ℕ} {t : Multiset ℕ}
    (h : (↑(a :: l) : Multiset ℕ) ≤ t) :
    a ∈ t ∧ (↑l : Multiset ℕ) ≤ t.erase a := by
  rw [← Multiset.cons_coe] at h
  have ha : a ∈ t := Multiset.mem_of_le h (Multiset.mem_cons_self a _)
  constructor
  · exact ha
  · rw [← Multiset.cons_erase ha] at h
    exact (Multiset.cons_le_cons_iff a).mp h

/-- Removing a sub-multiset of the live handles, one by one, subtracts it
from the live multiset and touches nothing else (in particular the
double-free counter stays). -/
theorem foldl_removeMesh_of_le (ids : List ℕ) (v : VisualState)
    (h : (↑ids : Multiset ℕ) ≤ v.live) :
    ids.foldl removeMesh v = { v with live := v.live - ↑ids } := by
  induction ids generalizing v with
  | nil => simp
  | cons a ids ih =>
    obtain ⟨ha, hle⟩ := coe_cons_le_erase h
    rw [List.foldl_cons]
    rw [show removeMesh v a = { v with live := v.live.erase a } from by
      unfold removeMesh; rw [if_pos ha]]
    rw [ih { v with live := v.live.erase a } hle]
    rw [show (↑(a :: ids) : Multiset ℕ) = a ::ₘ ↑ids from (Multiset.cons_coe a ids).symm,
      Multiset.sub_cons]

theorem removeTempShapes_eq_foldl (h : Handler) :
    SnapEventHandler.removeTempShapes h =
      { h with tempPoint := none, tempShapes := none,
               vis := (h.tempShapes.getD []).foldl removeMesh
                        (h.tempPoint.toList.foldl removeMesh h.vis) } := by
  unfold SnapEventHandler.removeTempShapes
  cases h.tempPoint <;> cases h.tempShapes <;> rfl

/-- Under the resource invariant, releasing the previous tick's visuals
empties the live multiset exactly, with no missed removal. -/
theorem removeTempVisuals_of_inv (h : Handler) (hinv : h.vis.live = trackedHandles h) :
    SnapEventHandler.removeTempVisuals h =
      { h with tempPoint := none, tempShapes := none,
               vis := { h.vis with live := 0, tempLines := [] } } := by
  have hL : (↑h.vis.tempLines : Multiset ℕ) +
      (↑h.tempPoint.toList + ↑(h.tempShapes.getD []) : Multiset ℕ) = h.vis.live := by
    rw [hinv]; unfold trackedHandles; rw [add_assoc]
  have hP : (↑h.tempPoint.toList : Multiset ℕ) ≤ h.vis.live := by
    rw [← hL]
    calc (↑h.tempPoint.toList : Multiset ℕ)
        ≤ ↑h.tempPoint.toList + ↑(h.tempShapes.getD []) := self_le_add_right _ _
      _ ≤ _ := self_le_add_left _ _
  have e1 : h.vis.live - ↑h.tempPoint.toList =
      (↑h.vis.tempLines : Multiset ℕ) + ↑(h.tempShapes.getD []) := by
    rw [← hL, add_comm (↑h.vis.tempLines : Multiset ℕ), add_assoc, add_comm]
    rw [add_tsub_cancel_right]
    rw [add_comm]
  have hS : (↑(h.tempShapes.getD []) : Multiset ℕ) ≤ h.vis.live - ↑h.tempPoint.toList := by
    rw [e1]; exact self_le_add_left _ _
  have e2 : h.vis.live - ↑h.tempPoint.toList - ↑(h.tempShapes.getD []) =
      (↑h.vis.tempLines : Multiset ℕ) := by
    rw [e1, add_tsub_cancel_right]
  unfold SnapEventHandler.removeTempVisuals
  rw [removeTempShapes_eq_foldl]
  rw [foldl_removeMesh_of_le _ _ hP]
  rw [foldl_removeMesh_of_le _ _ hS]
  unfold TrackingSnap.removeDynamicObject
  dsimp only
  rw [foldl_removeMesh_of_le _ _ (le_of_eq e2.symm)]
  dsimp only
  rw [e2, tsub_self]

theorem range_zero_eta (s : VisualState) (hpre : s.tempLines = []) :
    ({ s with nextId := s.nextId + 0, live := s.live + ↑(List.range' s.nextId 0),
              tempLines := List.range' s.nextId 0 } : VisualState) = s := by
  simp only [List.range', Multiset.coe_nil, add_zero, Nat.add_zero]
  rw [← hpre]

/-- `displayTempLines` hands back exactly the handles it displays: `k`
consecutive ids starting at the current counter, appended to the live
multiset. -/
theorem displayTempLines_acc (point : XYZ) (td : List TrackingData) (s : VisualState) :
    ∃ k, displayTempLines point td s =
      (List.range' s.nextId k,
       { s with nextId := s.nextId + k,
                live := s.live + ↑(List.range' s.nextId k) }) := by
  induction td generalizing s with
  | nil =>
    refine ⟨0, ?_⟩
    simp only [displayTempLines, List.range', Multiset.coe_nil, add_zero, Nat.add_zero]
  | cons t rest ih =>
    unfold displayTempLines showTempLine
    by_cases hz : point.sub t.axis.point = XYZ.zero
    · rw [if_pos hz]
      exact ih s
    · rw [if_neg hz]
      obtain ⟨k, hk⟩ := ih { s with nextId := s.nextId + 1, live := s.live + {s.nextId} }
      refine ⟨k + 1, ?_⟩
      dsimp only [displayMesh]
      rw [hk]
      dsimp only
      rw [List.range'_succ]
      refine congrArg₂ Prod.mk rfl ?_
      simp only [VisualState.mk.injEq, ← Multiset.cons_coe, ← Multiset.singleton_add,
        and_true, true_and]
      refine ⟨by omega, ?_⟩
      rw [add_assoc]

/-- `getSnappedAndShowTracking` records as `_tempLines` exactly the handles
it created, which are exactly the ids appended to the live multiset. -/
theorem getSnappedAndShowTracking_acc (env : SnapEnv) (point : XYZ)
    (td : List TrackingData) (s : VisualState) :
    ∃ k, (getSnappedAndShowTracking env point td s).2 =
      { s with nextId := s.nextId + k,
               live := s.live + ↑(List.range' s.nextId k),
               tempLines := List.range' s.nextId k } := by
  obtain ⟨k, hk⟩ := displayTempLines_acc point td s
  refine ⟨k, ?_⟩
  rcases td with _ | ⟨t0, _ | ⟨t1, rest⟩⟩ <;>
    (unfold getSnappedAndShowTracking; rw [hk])

/-- Accounting for a whole `snap` call: starting from an empty `_tempLines`
record, the call appends some `k` consecutive handles to the live multiset
and records exactly those as the new `_tempLines`. -/
theorem snap_acc (env : SnapEnv) (data : MouseAndDetected) (s : VisualState)
    (hpre : s.tempLines = []) :
    ∃ k, (TrackingSnap.snap env data s).2 =
      { s with nextId := s.nextId + k,
               live := s.live + ↑(List.range' s.nextId k),
               tempLines := List.range' s.nextId k } := by
  unfold TrackingSnap.snap
  by_cases he : env.enableSnapTracking = false
  · rw [if_pos he]
    exact ⟨0, (range_zero_eta s hpre).symm⟩
  · rw [if_neg he]
    by_cases hl : (detectTracking env).length = 0
    · rw [if_pos hl]
      exact ⟨0, (range_zero_eta s hpre).symm⟩
    · rw [if_neg hl]
      dsimp only
      rcases shapeIntersectTracking_cases env data
          (jsArraySort trackingCompare (detectTracking env)) s with hc | ⟨r, hc⟩
      · rw [hc]
        dsimp only
        rcases hsorted : jsArraySort trackingCompare (detectTracking env) with _ | ⟨t0, _ | ⟨t1, rest⟩⟩
        · exact ⟨0, (range_zero_eta s hpre).symm⟩
        · obtain ⟨k, hk⟩ := getSnappedAndShowTracking_acc env t0.point [t0] s
          exact ⟨k, hk⟩
        · dsimp only
          unfold trackingIntersectTracking
          dsimp only
          rcases hax : env.axisIntersect t0.axis t1.axis with _ | point
          · obtain ⟨k, hk⟩ := getSnappedAndShowTracking_acc env t0.point [t0] s
            exact ⟨k, hk⟩
          · obtain ⟨k, hk⟩ := getSnappedAndShowTracking_acc env point [t0, t1] s
            exact ⟨k, hk⟩
      · rw [hc]
        exact ⟨1, rfl⟩

theorem providerScan_single_snd (validator : Option (XYZ → Bool))
    (p : VisualState → Option SnapResult × VisualState) (s : VisualState) :
    (providerScan validator [p] s).2 = (p s).2 := by
  unfold providerScan
  rcases hp : p s with ⟨r, s1⟩
  cases r with
  | none => rfl
  | some r0 =>
    dsimp only
    split <;> rfl

/-- The snap-point search of one tick appends some `k` consecutive handles
(the tracking provider's guide lines) and records exactly those. -/
theorem findSnapPoint_tracking_acc (o : TickOracle) (validator : Option (XYZ → Bool))
    (snapped : Option SnapResult) (s : VisualState) (hpre : s.tempLines = []) :
    ∃ k, (findSnapPoint o validator (sessionProviders o) snapped s).2 =
      { s with nextId := s.nextId + k,
               live := s.live + ↑(List.range' s.nextId k),
               tempLines := List.range' s.nextId k } := by
  unfold findSnapPoint
  cases findNearestFeaturePoint o.screenDistTo o.env.snapDistance o.featurePoints with
  | some fp => exact ⟨0, (range_zero_eta s hpre).symm⟩
  | none =>
    have hsnd : (providerScan validator (sessionProviders o) s).2 =
        (TrackingSnap.snap o.env { shapes := o.shapes } s).2 :=
      providerScan_single_snd validator _ s
    obtain ⟨k, hk⟩ := snap_acc o.env { shapes := o.shapes } s hpre
    refine ⟨k, ?_⟩
    rcases hps : providerScan validator (sessionProviders o) s with ⟨r, s1⟩
    rw [hps] at hsnd
    dsimp only at hsnd
    cases r with
    | some r0 =>
      dsimp only
      rw [hsnd, hk]
    | none =>
      dsimp only
      rw [hsnd, hk]

theorem allocN_acc (k : ℕ) (v : VisualState) :
    allocN k v = { v with nextId := v.nextId + k,
                          live := v.live + ↑(List.range' v.nextId k) } := by
  induction k generalizing v with
  | zero =>
    simp only [allocN, List.range', Multiset.coe_nil, add_zero, Nat.add_zero]
  | succ k ih =>
    rw [allocN, ih]
    dsimp only [displayMesh]
    rw [List.range'_succ]
    simp only [VisualState.mk.injEq, ← Multiset.cons_coe, ← Multiset.singleton_add,
      and_true, true_and]
    refine ⟨by omega, ?_⟩
    rw [add_assoc]

/-- `showTempShape` (with no leftover temp point, as after a removal phase)
creates some `k` consecutive handles — marker then preview shapes — and
records exactly those in `_tempPoint`/`_tempShapes`. -/
theorem showTempShape_acc (preview : Option XYZ → Option ℕ) (pt : Option XYZ) (h : Handler)
    (hP : h.tempPoint = none) :
    ∃ k,
      (SnapEventHandler.showTempShape preview pt h).vis =
        { h.vis with nextId := h.vis.nextId + k,
                     live := h.vis.live + ↑(List.range' h.vis.nextId k) } ∧
      ((↑(SnapEventHandler.showTempShape preview pt h).tempPoint.toList : Multiset ℕ) +
          ↑((SnapEventHandler.showTempShape preview pt h).tempShapes.getD [])) =
        ↑(List.range' h.vis.nextId k) := by
  unfold SnapEventHandler.showTempShape
  rcases pt with _ | p
  · dsimp only
    rcases hpv : preview none with _ | n
    · refine ⟨0, ?_, ?_⟩
      · simp only [List.range', Multiset.coe_nil, add_zero, Nat.add_zero]
      · simp [hP, List.range']
    · refine ⟨n, ?_, ?_⟩
      · exact allocN_acc n h.vis
      · simp [hP]
  · by_cases hstp : h.showTempPoint = true
    · dsimp only
      rw [if_pos hstp]
      dsimp only [displayMesh]
      rcases hpv : preview (some p) with _ | m
      · refine ⟨1, rfl, ?_⟩
        simp [List.range']
      · refine ⟨m + 1, ?_, ?_⟩
        · dsimp only
          rw [allocN_acc]
          dsimp only
          rw [List.range'_succ]
          simp only [VisualState.mk.injEq, ← Multiset.cons_coe, ← Multiset.singleton_add,
            and_true, true_and]
          refine ⟨by omega, ?_⟩
          rw [add_assoc]
        · dsimp only
          rw [List.range'_succ]
          rw [← Multiset.cons_coe, ← Multiset.singleton_add]
          rfl
    · dsimp only
      rw [if_neg hstp]
      rcases hpv : preview (some p) with _ | n
      · refine ⟨0, ?_, ?_⟩
        · simp only [List.range', Multiset.coe_nil, add_zero, Nat.add_zero]
        · simp [hP, List.range']
      · refine ⟨n, ?_, ?_⟩
        · exact allocN_acc n h.vis
        · simp [hP]

/-- After a tick's removal phase the live multiset holds exactly the
provider's freshly recorded guide lines; `showTempShape` then restores the
full resource invariant, adding only fresh consecutive handles. -/
theorem showTempShape_inv (preview : Option XYZ → Option ℕ) (pt : Option XYZ) (h2 : Handler)
    (hP : h2.tempPoint = none)
    (hlive : h2.vis.live = (↑h2.vis.tempLines : Multiset ℕ)) :
    (SnapEventHandler.showTempShape preview pt h2).vis.live =
        trackedHandles (SnapEventHandler.showTempShape preview pt h2) ∧
      ∃ k, (SnapEventHandler.showTempShape preview pt h2).vis.nextId = h2.vis.nextId + k ∧
        (SnapEventHandler.showTempShape preview pt h2).vis.live =
          h2.vis.live + ↑(List.range' h2.vis.nextId k) := by
  obtain ⟨k, hv, ht⟩ := showTempShape_acc preview pt h2 hP
  refine ⟨?_, k, ?_, ?_⟩
  · unfold trackedHandles
    rw [hv]
    dsimp only
    rw [add_assoc, ht, hlive]
  · rw [hv]
  · rw [hv]

theorem pointerMove_acc (o : TickOracle) (h : Handler)
    (hinv : h.vis.live = trackedHandles h) :
    (SnapEventHandler.pointerMove o h).vis.live =
        trackedHandles (SnapEventHandler.pointerMove o h) ∧
      ∃ k, (SnapEventHandler.pointerMove o h).vis.nextId = h.vis.nextId + k ∧
        (SnapEventHandler.pointerMove o h).vis.live = ↑(List.range' h.vis.nextId k) := by
  have step1 : SnapEventHandler.pointerMove o h =
      SnapEventHandler.showTempShape o.preview
        ((findSnapPoint o o.validator (sessionProviders o) h.snapped
            { nextId := h.vis.nextId, live := 0, removeMissed := h.vis.removeMissed,
              tempLines := [], subscribed := h.vis.subscribed }).1.map SnapResult.point)
        { state := SnapState.snapping,
          snapped := (findSnapPoint o o.validator (sessionProviders o) h.snapped
            { nextId := h.vis.nextId, live := 0, removeMissed := h.vis.removeMissed,
              tempLines := [], subscribed := h.vis.subscribed }).1,
          tempPoint := none, tempShapes := none,
          showTempPoint := h.showTempPoint,
          vis := (findSnapPoint o o.validator (sessionProviders o) h.snapped
            { nextId := h.vis.nextId, live := 0, removeMissed := h.vis.removeMissed,
              tempLines := [], subscribed := h.vis.subscribed }).2,
          successCalls := h.successCalls, cancelCalls := h.cancelCalls,
          cleanupRuns := h.cleanupRuns } := by
    unfold SnapEventHandler.pointerMove
    rw [removeTempVisuals_of_inv { h with state := SnapState.snapping } hinv]
  obtain ⟨k1, hk1⟩ := findSnapPoint_tracking_acc o o.validator h.snapped
    { nextId := h.vis.nextId, live := 0, removeMissed := h.vis.removeMissed,
      tempLines := [], subscribed := h.vis.subscribed } rfl
  dsimp only at hk1
  have hlive : (findSnapPoint o o.validator (sessionProviders o) h.snapped
      { nextId := h.vis.nextId, live := 0, removeMissed := h.vis.removeMissed,
        tempLines := [], subscribed := h.vis.subscribed }).2.live =
      (↑(findSnapPoint o o.validator (sessionProviders o) h.snapped
        { nextId := h.vis.nextId, live := 0, removeMissed := h.vis.removeMissed,
          tempLines := [], subscribed := h.vis.subscribed }).2.tempLines : Multiset ℕ) := by
    rw [hk1]
    dsimp only
    rw [zero_add]
  obtain ⟨hfin, k2, hnext2, hlive2⟩ := showTempShape_inv o.preview
    ((findSnapPoint o o.validator (sessionProviders o) h.snapped
        { nextId := h.vis.nextId, live := 0, removeMissed := h.vis.removeMissed,
          tempLines := [], subscribed := h.vis.subscribed }).1.map SnapResult.point)
    { state := SnapState.snapping,
      snapped := (findSnapPoint o o.validator (sessionProviders o) h.snapped
        { nextId := h.vis.nextId, live := 0, removeMissed := h.vis.removeMissed,
          tempLines := [], subscribed := h.vis.subscribed }).1,
      tempPoint := none, tempShapes := none,
      showTempPoint := h.showTempPoint,
      vis := (findSnapPoint o o.validator (sessionProviders o) h.snapped
        { nextId := h.vis.nextId, live := 0, removeMissed := h.vis.removeMissed,
          tempLines := [], subscribed := h.vis.subscribed }).2,
      successCalls := h.successCalls, cancelCalls := h.cancelCalls,
      cleanupRuns := h.cleanupRuns }
    rfl hlive
  rw [step1]
  refine ⟨hfin, k2 + k1, ?_, ?_⟩
  · rw [hnext2]
    dsimp only
    rw [hk1]
    dsimp only
    omega
  · rw [hlive2]
    dsimp only
    rw [hlive, hk1]
    dsimp only
    rw [Multiset.coe_add]
    rw [show h.vis.nextId + k1 = h.vis.nextId + 1 * k1 from by omega]
    rw [List.range'_append h.vis.nextId k1 k2 1]

theorem initHandler_inv (pv : Option XYZ → Option ℕ) :
    (SnapEventHandler.initHandler pv).vis.live =
      trackedHandles (SnapEventHandler.initHandler pv) := by
  unfold SnapEventHandler.initHandler
  exact (showTempShape_inv pv none
    { state := SnapState.idle, snapped := none, tempPoint := none, tempShapes := none,
      showTempPoint := true, vis := initVisual,
      successCalls := 0, cancelCalls := 0, cleanupRuns := 0 } rfl rfl).1

theorem foldl_pointerMove_inv (os : List TickOracle) (h : Handler)
    (hinv : h.vis.live = trackedHandles h) :
    (os.foldl (fun hh oo => SnapEventHandler.pointerMove oo hh) h).vis.live =
      trackedHandles (os.foldl (fun hh oo => SnapEventHandler.pointerMove oo hh) h) := by
  induction os generalizing h with
  | nil => exact hinv
  | cons o os ih => exact ih _ ((pointerMove_acc o h hinv).1)

/-- Claim C5: every pointer-move tick releases the previous tick's mesh
handles before creating new ones, so after any sequence of ticks the live
handle multiset for the viewport is exactly the set of (consecutive) handles
created by the most recent tick — from the pre-tick allocation counter up to
the post-tick counter. -/
theorem C5_live_equals_last_tick (pv : Option XYZ → Option ℕ)
    (os : List TickOracle) (o : TickOracle) :
    ∃ k,
      (SnapEventHandler.pointerMove o
          (os.foldl (fun hh oo => SnapEventHandler.pointerMove oo hh)
            (SnapEventHandler.initHandler pv))).vis.nextId =
        (os.foldl (fun hh oo => SnapEventHandler.pointerMove oo hh)
          (SnapEventHandler.initHandler pv)).vis.nextId + k ∧
      (SnapEventHandler.pointerMove o
          (os.foldl (fun hh oo => SnapEventHandler.pointerMove oo hh)
            (SnapEventHandler.initHandler pv))).vis.live =
        ↑(List.range' (os.foldl (fun hh oo => SnapEventHandler.pointerMove oo hh)
            (SnapEventHandler.initHandler pv)).vis.nextId k) := by
  obtain ⟨_, k, hn, hl⟩ := pointerMove_acc o
    (os.foldl (fun hh oo => SnapEventHandler.pointerMove oo hh)
      (SnapEventHandler.initHandler pv))
    (foldl_pointerMove_inv os (SnapEventHandler.initHandler pv) (initHandler_inv pv))
  exact ⟨k, hn, hl⟩
